import Mathlib

/-!
Verification of the Map Controller front-end script
(`src/static/js/map.js`) against its design specification.

The script wires DOM controls to an external mapping provider.  The
embedding below models the DOM as a set of present element identifiers,
the provider objects (map view, traffic layer, renderer, services) as
explicit records, and each event handler of the script as a state
transition.  The source file in the repository ends at line 125, in the
middle of the map-click handler; the helper functions it calls past that
point (`addMarker`, `clearMap`, `getCurrentLocation`, `getPlaceDetails`)
are not present in the inspected material and are modelled from the
specification where required, each marked as such in its doc comment.
-/

/-- A geographic coordinate.  The script performs no arithmetic on
coordinates (they are passed through to the provider), so exact rationals
model the numeric literals of the source faithfully. -/
structure LatLng where
  lat : ℚ
  lng : ℚ
deriving DecidableEq, Repr

/-- The hard-coded initial center of `initMap`:
`{ lat: 37.7749, lng: -122.4194 }` (San Francisco), map.js lines 13-14. -/
def sfCenter : LatLng :=
  { lat := (377749 : ℚ) / 10000, lng := (-1224194 : ℚ) / 10000 }

/-- The provider's map view, with the options `initMap` passes at
construction (map.js lines 12-19) plus the mutable map-type property.
No map-type id is passed at construction, hence `Option`. -/
structure MapView where
  container : String
  center : LatLng
  zoom : Nat
  mapTypeId : Option String
  mapTypeControl : Bool
  streetViewControl : Bool
  fullscreenControl : Bool
  zoomControl : Bool
deriving DecidableEq, Repr

/-- A marker: coordinate, display label, role tag (start / end / ...). -/
structure Marker where
  position : LatLng
  title : Option String
  tag : String
deriving DecidableEq, Repr

/-- Opaque route result returned by the provider's directions service. -/
structure DirectionsResult where
  routeId : Nat
deriving DecidableEq, Repr

/-- The provider's traffic layer: `setMap(map)` attaches it to the (single)
map view, `setMap(null)` detaches it (map.js lines 113-119). -/
structure TrafficLayer where
  attachedMap : Option Unit
deriving DecidableEq, Repr

/-- A registered DOM event listener: element id, event name, handler. -/
structure ListenerReg where
  elemId : String
  eventName : String
  handlerName : String
deriving DecidableEq, Repr

/-- The DOM, as the set of element ids present on the page. -/
structure Dom where
  ids : List String
deriving DecidableEq, Repr

/-- Embedding of `document.getElementById`: the element (represented by
its id) when present, `null` otherwise. -/
def Dom.getElementById (d : Dom) (i : String) : Option String :=
  if i ∈ d.ids then some i else none

/-- The controller's module-level state: the globals of map.js lines 1-8
(map, services, renderer, autocomplete bindings, markers, current
location) together with the registered listeners and subscriptions. -/
structure AppState where
  map : MapView
  directionsServiceCreated : Bool
  rendererDraggable : Bool
  rendererPanel : Option String
  rendererOnMap : Bool
  placesServiceOnMap : Bool
  autocompleteStart : Bool
  autocompleteEnd : Bool
  geolocationRequested : Bool
  listeners : List ListenerReg
  trafficLayer : Option TrafficLayer
  mapClickListenerAttached : Bool
  rendererSubscribed : Bool
  markers : List Marker
  directions : Option DirectionsResult
deriving DecidableEq, Repr

/-- Modelled from the spec: the provider's map construction is given the
container element directly; the DOM contract (spec section 6) expects the
map container to exist, and the provider library (not part of this
repository) fails when it is absent.  With a present container it creates
the view from the passed options. -/
def mapsMapNew (container : Option String) (center : LatLng) (zoom : Nat)
    (mapTypeControl streetViewControl fullscreenControl zoomControl : Bool) :
    Option MapView :=
  match container with
  | none => none
  | some c =>
      some { container := c, center := center, zoom := zoom,
             mapTypeId := none,
             mapTypeControl := mapTypeControl,
             streetViewControl := streetViewControl,
             fullscreenControl := fullscreenControl,
             zoomControl := zoomControl }

/-- Modelled from the spec: `addMarker` (called at map.js lines 58 and 70,
body beyond the end of the inspected file) appends one Marker with the
given coordinate, display label and role tag to the ordered marker
sequence (spec section 3: appended on placement events). -/
def addMarker (pos : LatLng) (title : Option String) (tag : String)
    (s : AppState) : AppState :=
  { s with markers := s.markers ++ [{ position := pos, title := title, tag := tag }] }

/-- Modelled from the spec: `clearMap` (wired at map.js line 92, body
beyond the end of the inspected file) removes all markers from the
sequence and clears the current route/render state (spec section 4.1). -/
def clearMap (s : AppState) : AppState :=
  { s with markers := [], directions := none }

/-- Modelled from the spec: `getCurrentLocation` (called at map.js line 36,
body beyond the end of the inspected file) requests the browser's
geolocation capability asynchronously; only the issuing of the request is
modelled here, not the asynchronous callback. -/
def getCurrentLocation (s : AppState) : AppState :=
  { s with geolocationRequested := true }

/-- A resolved place as returned by `autocomplete.getPlace()`:
geometry is absent for free text with no resolved place. -/
structure Geometry where
  location : LatLng
deriving DecidableEq, Repr

/-- A place suggestion resolution. -/
structure Place where
  geometry : Option Geometry
  name : Option String
deriving DecidableEq, Repr

/-- The `place_changed` handler of the start input (map.js lines 54-60):
if the place carries geometry, pan the map to its location and add a
marker tagged start; otherwise do nothing. -/
def placeChangedStart (p : Place) (s : AppState) : AppState :=
  match p.geometry with
  | some g =>
      addMarker g.location p.name "start"
        { s with map := { s.map with center := g.location } }
  | none => s

/-- The `place_changed` handler of the end input (map.js lines 66-71):
if the place carries geometry, add a marker tagged end (no pan). -/
def placeChangedEnd (p : Place) (s : AppState) : AppState :=
  match p.geometry with
  | some g => addMarker g.location p.name "end" s
  | none => s

/-- Embedding of `setupAutocomplete` (map.js lines 47-73): for each of the two inputs,
if present, construct the autocomplete binding, bind it to the map bounds
and attach its `place_changed` listener; absence skips the block. -/
def setupAutocomplete (d : Dom) (s : AppState) : AppState :=
  let s1 := if (d.getElementById "start-location").isSome then
              { s with autocompleteStart := true } else s
  if (d.getElementById "end-location").isSome then
    { s1 with autocompleteEnd := true } else s1

/-- The repeated pattern of `setupEventListeners`: look the element up and
attach the listener only when it is present (map.js lines 76-107). -/
def attachIf (d : Dom) (i ev h : String) (s : AppState) : AppState :=
  if (d.getElementById i).isSome then
    { s with listeners := s.listeners ++ [{ elemId := i, eventName := ev, handlerName := h }] }
  else s

/-- The traffic-toggle block (map.js lines 109-120): when the checkbox is
present, create a traffic layer (initially detached) and attach the
change listener; absence skips the block. -/
def setupTraffic (d : Dom) (s : AppState) : AppState :=
  if (d.getElementById "traffic-toggle").isSome then
    { s with trafficLayer := some { attachedMap := none },
             listeners := s.listeners ++
               [{ elemId := "traffic-toggle", eventName := "change",
                  handlerName := "trafficChangeHandler" }] }
  else s

/-- Embedding of `setupEventListeners` (map.js lines 76-125): conditionally attach the
six control listeners, then unconditionally attach the map click
listener. -/
def setupEventListeners (d : Dom) (s : AppState) : AppState :=
  let s1 := attachIf d "search-btn" "click" "performSearch" s
  let s2 := attachIf d "directions-btn" "click" "calculateDirections" s1
  let s3 := attachIf d "clear-btn" "click" "clearMap" s2
  let s4 := attachIf d "my-location-btn" "click" "getCurrentLocation" s3
  let s5 := attachIf d "map-type" "change" "mapTypeChangeHandler" s4
  let s6 := setupTraffic d s5
  { s6 with mapClickListenerAttached := true }

/-- The element ids `initMap` looks up after the map container, in source
order (map.js lines 25, 48-49, 78, 84, 90, 96, 102, 110). -/
def initLookupsRest : List String :=
  ["directions-panel", "start-location", "end-location", "search-btn",
   "directions-btn", "clear-btn", "my-location-btn", "map-type",
   "traffic-toggle"]

/-- Embedding of `initMap` (map.js lines 10-45).  It takes no parameters: it looks up
the `map` container itself and hard-codes zoom 13 and the San Francisco
center.  The result pairs the trace of `getElementById` calls performed
with the resulting state, `none` when map construction failed on a
missing container. -/
def initMap (d : Dom) : List String × Option AppState :=
  match mapsMapNew (d.getElementById "map") sfCenter 13 true true true true with
  | none => (["map"], none)
  | some view =>
      let s0 : AppState :=
        { map := view,
          directionsServiceCreated := true,
          rendererDraggable := true,
          rendererPanel := d.getElementById "directions-panel",
          rendererOnMap := true,
          placesServiceOnMap := true,
          autocompleteStart := false, autocompleteEnd := false,
          geolocationRequested := false,
          listeners := [], trafficLayer := none,
          mapClickListenerAttached := false,
          rendererSubscribed := false,
          markers := [], directions := none }
      let s1 := setupAutocomplete d s0
      let s2 := getCurrentLocation s1
      let s3 := setupEventListeners d s2
      ("map" :: initLookupsRest, some { s3 with rendererSubscribed := true })

/-- The map-type change handler (map.js lines 104-106):
`map.setMapTypeId(this.value)`. -/
def mapTypeChanged (v : String) (s : AppState) : AppState :=
  { s with map := { s.map with mapTypeId := some v } }

/-- The traffic-toggle change handler (map.js lines 113-119): checked
attaches the layer to the map, unchecked sets its map to null. -/
def trafficChanged (checked : Bool) (_l : TrafficLayer) : TrafficLayer :=
  if checked then { attachedMap := some () } else { attachedMap := none }

/-- Effects the map click handler can produce. -/
inductive ClickEffect where
  | stop
  | fetchPlaceDetails (placeId : String) (pos : LatLng)
deriving DecidableEq, Repr

/-- A map click event: an optional place id and the clicked coordinate. -/
structure ClickEvent where
  placeId : Option String
  latLng : LatLng
deriving DecidableEq, Repr

/-- The map click handler (map.js lines 122-125): when the event carries a
(truthy) place id, stop the event and fetch the place details for that id
and the clicked coordinate; otherwise nothing.  The empty string is falsy
in the source language. -/
def mapClickHandler (ev : ClickEvent) : List ClickEffect :=
  match ev.placeId with
  | some pid =>
      if pid = "" then []
      else [ClickEffect.stop, ClickEffect.fetchPlaceDetails pid ev.latLng]
  | none => []

/-- The primitive state mutations the controller performs on the marker
sequence and the single route render slot, plus the view mutations. -/
inductive Op where
  | addMarkerOp (pos : LatLng) (title : Option String) (tag : String)
  | clearMarkersOp
  | renderRouteOp (r : DirectionsResult)
  | clearRenderOp
  | panToOp (pos : LatLng)
  | setMapTypeOp (v : String)
  | placeChangedStartOp (p : Place)
  | placeChangedEndOp (p : Place)
  | clearMapOp
deriving DecidableEq, Repr

/-- Apply one operation to the controller state. -/
def applyOp : Op → AppState → AppState
  | Op.addMarkerOp pos t tag, s => addMarker pos t tag s
  | Op.clearMarkersOp, s => { s with markers := [] }
  | Op.renderRouteOp r, s => { s with directions := some r }
  | Op.clearRenderOp, s => { s with directions := none }
  | Op.panToOp pos, s => { s with map := { s.map with center := pos } }
  | Op.setMapTypeOp v, s => mapTypeChanged v s
  | Op.placeChangedStartOp p, s => placeChangedStart p s
  | Op.placeChangedEndOp p, s => placeChangedEnd p s
  | Op.clearMapOp, s => clearMap s

/-- Run a sequence of operations. -/
def runOps (ops : List Op) (s : AppState) : AppState :=
  ops.foldl (fun s o => applyOp o s) s

/-- Number of active route renders: the controller holds one renderer and
one current-route slot. -/
def activeRouteRenders (s : AppState) : Nat :=
  match s.directions with
  | some _ => 1
  | none => 0

/-- The initialization signature as the specification states it
(spec section 4.1): container element, initial center and initial zoom as
parameters, the Map View created from those arguments.  Stated from the
spec's words, for comparison with the source's `initMap`. -/
def initializeClaim (containerElement : String) (initialCenter : LatLng)
    (initialZoom : Nat) : MapView :=
  { container := containerElement, center := initialCenter,
    zoom := initialZoom, mapTypeId := none, mapTypeControl := true,
    streetViewControl := true, fullscreenControl := true, zoomControl := true }

/-- Zoom of the view produced by `initMap`, when initialization succeeds. -/
def initZoomOf (d : Dom) : Option Nat :=
  (initMap d).2.map (fun s => s.map.zoom)

/-- Center of the view produced by `initMap`, when initialization
succeeds. -/
def initCenterOf (d : Dom) : Option LatLng :=
  (initMap d).2.map (fun s => s.map.center)

/-- One conditional listener registration, as a list: the singleton when
the element is present, empty otherwise. -/
def condReg (d : Dom) (i ev h : String) : List ListenerReg :=
  if i ∈ d.ids then [{ elemId := i, eventName := ev, handlerName := h }] else []

/-- The listeners `setupEventListeners` registers, by element presence. -/
def initListeners (d : Dom) : List ListenerReg :=
  condReg d "search-btn" "click" "performSearch" ++
  condReg d "directions-btn" "click" "calculateDirections" ++
  condReg d "clear-btn" "click" "clearMap" ++
  condReg d "my-location-btn" "click" "getCurrentLocation" ++
  condReg d "map-type" "change" "mapTypeChangeHandler" ++
  condReg d "traffic-toggle" "change" "trafficChangeHandler"

/-- The state `initMap` produces when the map container is present. -/
def initStateFor (d : Dom) : AppState :=
  { map := { container := "map", center := sfCenter, zoom := 13,
             mapTypeId := none, mapTypeControl := true,
             streetViewControl := true, fullscreenControl := true,
             zoomControl := true },
    directionsServiceCreated := true,
    rendererDraggable := true,
    rendererPanel := d.getElementById "directions-panel",
    rendererOnMap := true,
    placesServiceOnMap := true,
    autocompleteStart := if "start-location" ∈ d.ids then true else false,
    autocompleteEnd := if "end-location" ∈ d.ids then true else false,
    geolocationRequested := true,
    listeners := initListeners d,
    trafficLayer := if "traffic-toggle" ∈ d.ids then some { attachedMap := none } else none,
    mapClickListenerAttached := true,
    rendererSubscribed := true,
    markers := [], directions := none }

lemma setupAutocomplete_eq (d : Dom) (s : AppState) :
    setupAutocomplete d s =
      { s with
        autocompleteStart := if "start-location" ∈ d.ids then true else s.autocompleteStart,
        autocompleteEnd := if "end-location" ∈ d.ids then true else s.autocompleteEnd } := by
  simp only [setupAutocomplete, Dom.getElementById]
  by_cases h1 : "start-location" ∈ d.ids <;> by_cases h2 : "end-location" ∈ d.ids <;>
    simp [h1, h2]

lemma attachIf_eq (d : Dom) (i ev hn : String) (s : AppState) :
    attachIf d i ev hn s = { s with listeners := s.listeners ++ condReg d i ev hn } := by
  simp only [attachIf, Dom.getElementById, condReg]
  by_cases h : i ∈ d.ids <;> simp [h]

lemma setupTraffic_eq (d : Dom) (s : AppState) :
    setupTraffic d s =
      { s with
        trafficLayer := if "traffic-toggle" ∈ d.ids then some { attachedMap := none }
                        else s.trafficLayer,
        listeners := s.listeners ++
          condReg d "traffic-toggle" "change" "trafficChangeHandler" } := by
  simp only [setupTraffic, Dom.getElementById, condReg]
  by_cases h : "traffic-toggle" ∈ d.ids <;> simp [h]

lemma setupEventListeners_eq (d : Dom) (s : AppState) :
    setupEventListeners d s =
      { s with
        listeners := s.listeners ++ initListeners d,
        trafficLayer := if "traffic-toggle" ∈ d.ids then some { attachedMap := none }
                        else s.trafficLayer,
        mapClickListenerAttached := true } := by
  simp only [setupEventListeners, attachIf_eq, setupTraffic_eq, initListeners,
    List.append_assoc]

lemma initMap_eq (d : Dom) (h : "map" ∈ d.ids) :
    initMap d = ("map" :: initLookupsRest, some (initStateFor d)) := by
  simp only [initMap, Dom.getElementById, if_pos h, mapsMapNew,
    setupAutocomplete_eq, getCurrentLocation, setupEventListeners_eq]
  simp [initStateFor, initListeners, Dom.getElementById]

lemma mem_condReg {r : ListenerReg} {d : Dom} {i ev hn : String} :
    r ∈ condReg d i ev hn ↔
      (i ∈ d.ids ∧ r = { elemId := i, eventName := ev, handlerName := hn }) := by
  by_cases h : i ∈ d.ids <;> simp [condReg, h]

lemma initListeners_elemId_mem (d : Dom) :
    ∀ r ∈ initListeners d, r.elemId ∈ d.ids := by
  intro r hr
  simp only [initListeners, List.mem_append, mem_condReg] at hr
  rcases hr with ((((⟨h1, rfl⟩ | ⟨h1, rfl⟩) | ⟨h1, rfl⟩) | ⟨h1, rfl⟩) | ⟨h1, rfl⟩) | ⟨h1, rfl⟩ <;>
    exact h1

lemma runOps_addMarkers_length (adds : List (LatLng × Option String × String))
    (s : AppState) :
    (runOps (adds.map (fun a => Op.addMarkerOp a.1 a.2.1 a.2.2)) s).markers.length =
      s.markers.length + adds.length := by
  induction adds generalizing s with
  | nil => simp [runOps]
  | cons a tl ih =>
      simp only [List.map_cons, runOps, List.foldl_cons] at *
      rw [ih]
      simp [applyOp, addMarker]
      omega

/-- A sample controller state used by the witness theorems. -/
def demoState : AppState :=
  { map := { container := "map", center := sfCenter, zoom := 13,
             mapTypeId := none, mapTypeControl := true,
             streetViewControl := true, fullscreenControl := true,
             zoomControl := true },
    directionsServiceCreated := true, rendererDraggable := true,
    rendererPanel := none, rendererOnMap := true, placesServiceOnMap := true,
    autocompleteStart := true, autocompleteEnd := true,
    geolocationRequested := true, listeners := [],
    trafficLayer := some { attachedMap := none },
    mapClickListenerAttached := true, rendererSubscribed := true,
    markers := [], directions := none }

/-- A sample coordinate used by the witness theorems. -/
def demoLoc : LatLng := { lat := 1, lng := 2 }

/-- A sample resolved place (with geometry) used by the witness theorems. -/
def demoPlace : Place :=
  { geometry := some { location := demoLoc }, name := some "A" }

/-- C1: for every DOM in which the map container is present (so in
particular for every configuration missing any of the optional elements:
start/end inputs, the four buttons, the map-type selector, the
traffic-toggle checkbox), initialization succeeds (does not throw), and it
attaches a listener, an autocomplete binding or a traffic layer for an
optional element exactly when that element is present — absence is
tolerated silently. -/
theorem C1_init_tolerates_missing_optional_elements (d : Dom)
    (h : "map" ∈ d.ids) :
    ∃ s, (initMap d).2 = some s ∧
      (∀ r ∈ s.listeners, r.elemId ∈ d.ids) ∧
      (s.autocompleteStart = true ↔ "start-location" ∈ d.ids) ∧
      (s.autocompleteEnd = true ↔ "end-location" ∈ d.ids) ∧
      (({ elemId := "search-btn", eventName := "click",
          handlerName := "performSearch" } : ListenerReg) ∈ s.listeners ↔
        "search-btn" ∈ d.ids) ∧
      (({ elemId := "directions-btn", eventName := "click",
          handlerName := "calculateDirections" } : ListenerReg) ∈ s.listeners ↔
        "directions-btn" ∈ d.ids) ∧
      (({ elemId := "clear-btn", eventName := "click",
          handlerName := "clearMap" } : ListenerReg) ∈ s.listeners ↔
        "clear-btn" ∈ d.ids) ∧
      (({ elemId := "my-location-btn", eventName := "click",
          handlerName := "getCurrentLocation" } : ListenerReg) ∈ s.listeners ↔
        "my-location-btn" ∈ d.ids) ∧
      (({ elemId := "map-type", eventName := "change",
          handlerName := "mapTypeChangeHandler" } : ListenerReg) ∈ s.listeners ↔
        "map-type" ∈ d.ids) ∧
      (({ elemId := "traffic-toggle", eventName := "change",
          handlerName := "trafficChangeHandler" } : ListenerReg) ∈ s.listeners ↔
        "traffic-toggle" ∈ d.ids) ∧
      (s.trafficLayer.isSome = true ↔ "traffic-toggle" ∈ d.ids) := by
  refine ⟨initStateFor d, by rw [initMap_eq d h], ?_, ?_, ?_, ?_, ?_, ?_, ?_, ?_, ?_, ?_⟩
  · exact initListeners_elemId_mem d
  · by_cases h1 : "start-location" ∈ d.ids <;> simp [initStateFor, h1]
  · by_cases h1 : "end-location" ∈ d.ids <;> simp [initStateFor, h1]
  · simp [initStateFor, initListeners, List.mem_append, mem_condReg]
  · simp [initStateFor, initListeners, List.mem_append, mem_condReg]
  · simp [initStateFor, initListeners, List.mem_append, mem_condReg]
  · simp [initStateFor, initListeners, List.mem_append, mem_condReg]
  · simp [initStateFor, initListeners, List.mem_append, mem_condReg]
  · simp [initStateFor, initListeners, List.mem_append, mem_condReg]
  · by_cases h1 : "traffic-toggle" ∈ d.ids <;> simp [initStateFor, h1]

/-- Witness for C1 at a concrete DOM holding only the map container and
two of the optional elements. -/
theorem C1_witness :
    "map" ∈ (Dom.mk ["map", "start-location", "clear-btn"]).ids ∧
    ∃ s, (initMap (Dom.mk ["map", "start-location", "clear-btn"])).2 = some s ∧
      (∀ r ∈ s.listeners, r.elemId ∈ (Dom.mk ["map", "start-location", "clear-btn"]).ids) ∧
      (s.autocompleteStart = true ↔ "start-location" ∈ (Dom.mk ["map", "start-location", "clear-btn"]).ids) ∧
      (s.autocompleteEnd = true ↔ "end-location" ∈ (Dom.mk ["map", "start-location", "clear-btn"]).ids) ∧
      (({ elemId := "search-btn", eventName := "click",
          handlerName := "performSearch" } : ListenerReg) ∈ s.listeners ↔
        "search-btn" ∈ (Dom.mk ["map", "start-location", "clear-btn"]).ids) ∧
      (({ elemId := "directions-btn", eventName := "click",
          handlerName := "calculateDirections" } : ListenerReg) ∈ s.listeners ↔
        "directions-btn" ∈ (Dom.mk ["map", "start-location", "clear-btn"]).ids) ∧
      (({ elemId := "clear-btn", eventName := "click",
          handlerName := "clearMap" } : ListenerReg) ∈ s.listeners ↔
        "clear-btn" ∈ (Dom.mk ["map", "start-location", "clear-btn"]).ids) ∧
      (({ elemId := "my-location-btn", eventName := "click",
          handlerName := "getCurrentLocation" } : ListenerReg) ∈ s.listeners ↔
        "my-location-btn" ∈ (Dom.mk ["map", "start-location", "clear-btn"]).ids) ∧
      (({ elemId := "map-type", eventName := "change",
          handlerName := "mapTypeChangeHandler" } : ListenerReg) ∈ s.listeners ↔
        "map-type" ∈ (Dom.mk ["map", "start-location", "clear-btn"]).ids) ∧
      (({ elemId := "traffic-toggle", eventName := "change",
          handlerName := "trafficChangeHandler" } : ListenerReg) ∈ s.listeners ↔
        "traffic-toggle" ∈ (Dom.mk ["map", "start-location", "clear-btn"]).ids) ∧
      (s.trafficLayer.isSome = true ↔ "traffic-toggle" ∈ (Dom.mk ["map", "start-location", "clear-btn"]).ids) :=
  ⟨by decide,
   C1_init_tolerates_missing_optional_elements
     (Dom.mk ["map", "start-location", "clear-btn"]) (by decide)⟩

/-- C2: selecting an autocomplete suggestion whose resolved place carries
geometry re-centers the view to the place's location and appends exactly
one marker tagged start (start input), and leaves the center unchanged
while appending exactly one marker tagged end (end input). -/
theorem C2_place_with_geometry_recenters_and_adds_marker (s : AppState)
    (p : Place) (g : Geometry) (h : p.geometry = some g) :
    (placeChangedStart p s).map.center = g.location ∧
    (placeChangedStart p s).map.zoom = s.map.zoom ∧
    (placeChangedStart p s).markers =
      s.markers ++ [{ position := g.location, title := p.name, tag := "start" }] ∧
    (placeChangedEnd p s).map.center = s.map.center ∧
    (placeChangedEnd p s).markers =
      s.markers ++ [{ position := g.location, title := p.name, tag := "end" }] := by
  simp [placeChangedStart, placeChangedEnd, addMarker, h]

/-- Witness for C2 at a concrete place with geometry. -/
theorem C2_witness :
    (placeChangedStart demoPlace demoState).map.center = demoLoc ∧
    (placeChangedStart demoPlace demoState).map.zoom = demoState.map.zoom ∧
    (placeChangedStart demoPlace demoState).markers =
      demoState.markers ++ [{ position := demoLoc, title := some "A", tag := "start" }] ∧
    (placeChangedEnd demoPlace demoState).map.center = demoState.map.center ∧
    (placeChangedEnd demoPlace demoState).markers =
      demoState.markers ++ [{ position := demoLoc, title := some "A", tag := "end" }] :=
  C2_place_with_geometry_recenters_and_adds_marker demoState demoPlace
    { location := demoLoc } rfl

/-- C3: selecting a suggestion whose resolved place has no geometry
performs no state change at all on either input's handler: markers,
center and everything else are unchanged, and no feedback is produced. -/
theorem C3_place_without_geometry_is_ignored (s : AppState) (p : Place)
    (h : p.geometry = none) :
    placeChangedStart p s = s ∧ placeChangedEnd p s = s := by
  simp [placeChangedStart, placeChangedEnd, h]

/-- Witness for C3 at a concrete place without geometry. -/
theorem C3_witness :
    placeChangedStart { geometry := none, name := some "B" } demoState = demoState ∧
    placeChangedEnd { geometry := none, name := some "B" } demoState = demoState :=
  C3_place_without_geometry_is_ignored demoState
    { geometry := none, name := some "B" } rfl

/-- C4: from every starting overlay state, firing the traffic change
handler checked attaches the overlay to the view, and firing it again
unchecked sets its target view to none: the on-then-off round trip leaves
no residual attachment. -/
theorem C4_traffic_toggle_round_trip (l : TrafficLayer) :
    (trafficChanged true l).attachedMap = some () ∧
    trafficChanged false (trafficChanged true l) = { attachedMap := none } := by
  simp [trafficChanged]

/-- C5: after any number N of marker additions to any starting state,
clearing the map leaves a marker sequence of length zero and no rendered
route; the additions really added N markers. -/
theorem C5_clear_map_empties_markers_and_route (s : AppState)
    (adds : List (LatLng × Option String × String)) :
    (runOps (adds.map (fun a => Op.addMarkerOp a.1 a.2.1 a.2.2)) s).markers.length =
      s.markers.length + adds.length ∧
    (clearMap (runOps (adds.map (fun a => Op.addMarkerOp a.1 a.2.1 a.2.2)) s)).markers = [] ∧
    (clearMap (runOps (adds.map (fun a => Op.addMarkerOp a.1 a.2.1 a.2.2)) s)).directions = none := by
  exact ⟨runOps_addMarkers_length adds s, by simp [clearMap], by simp [clearMap]⟩

/-- C6: firing the map-type change handler with value v sets the view's
map-type property to exactly v and alters nothing else: center, zoom,
container, the control options, markers, route, traffic layer and
listeners are all unchanged. -/
theorem C6_map_type_change_is_one_to_one (s : AppState) (v : String) :
    (mapTypeChanged v s).map.mapTypeId = some v ∧
    (mapTypeChanged v s).map.center = s.map.center ∧
    (mapTypeChanged v s).map.zoom = s.map.zoom ∧
    (mapTypeChanged v s).map.container = s.map.container ∧
    (mapTypeChanged v s).map.mapTypeControl = s.map.mapTypeControl ∧
    (mapTypeChanged v s).map.streetViewControl = s.map.streetViewControl ∧
    (mapTypeChanged v s).map.fullscreenControl = s.map.fullscreenControl ∧
    (mapTypeChanged v s).map.zoomControl = s.map.zoomControl ∧
    (mapTypeChanged v s).markers = s.markers ∧
    (mapTypeChanged v s).directions = s.directions ∧
    (mapTypeChanged v s).trafficLayer = s.trafficLayer ∧
    (mapTypeChanged v s).listeners = s.listeners := by
  simp [mapTypeChanged]

/-- C7: in every state reachable by any sequence of operations at most one
route render is active, and the marker sequence and the current route are
independent: rendering or clearing the route leaves the markers unchanged,
and adding or clearing markers leaves the route unchanged. -/
theorem C7_single_route_render_and_independence (s0 : AppState)
    (ops : List Op) (s : AppState) (r : DirectionsResult) (pos : LatLng)
    (t : Option String) (tag : String) :
    activeRouteRenders (runOps ops s0) ≤ 1 ∧
    (applyOp (Op.renderRouteOp r) s).markers = s.markers ∧
    (applyOp Op.clearRenderOp s).markers = s.markers ∧
    (applyOp (Op.addMarkerOp pos t tag) s).directions = s.directions ∧
    (applyOp Op.clearMarkersOp s).directions = s.directions := by
  refine ⟨?_, by simp [applyOp], by simp [applyOp], by simp [applyOp, addMarker], by simp [applyOp]⟩
  cases hd : (runOps ops s0).directions <;> simp [activeRouteRenders, hd]

/-- C9: a map click event that resolves to a (truthy) place identifier is
stopped (suppressing the default provider popup) and triggers a place
details fetch for exactly that identifier and the clicked coordinate. -/
theorem C9_click_with_place_id_stops_and_fetches (ev : ClickEvent)
    (pid : String) (h1 : ev.placeId = some pid) (h2 : pid ≠ "") :
    mapClickHandler ev =
      [ClickEffect.stop, ClickEffect.fetchPlaceDetails pid ev.latLng] := by
  simp [mapClickHandler, h1, h2]

/-- Witness for C9 at a concrete click event carrying a place id. -/
theorem C9_witness :
    mapClickHandler { placeId := some "pl1", latLng := demoLoc } =
      [ClickEffect.stop, ClickEffect.fetchPlaceDetails "pl1" demoLoc] :=
  C9_click_with_place_id_stops_and_fetches
    { placeId := some "pl1", latLng := demoLoc } "pl1" rfl (by decide)

/-- Counterexample to C8 as stated: initialization does not take a
container, center and zoom and create the view from those arguments.  The
source's `initMap` accepts no such parameters; on the concrete DOM holding
only the map container it produces the hard-coded zoom 13 and the
hard-coded San Francisco center, whereas the claimed 3-parameter
initialization called with initial zoom 5 would yield a view of zoom 5,
and 13 is not 5. -/
theorem C8_counterexample :
    initZoomOf (Dom.mk ["map"]) = some 13 ∧
    initCenterOf (Dom.mk ["map"]) = some sfCenter ∧
    (initializeClaim "map" { lat := 0, lng := 0 } 5).zoom = 5 ∧
    (13 : Nat) ≠ 5 := by
  refine ⟨?_, ?_, rfl, by decide⟩
  · simp only [initZoomOf, initMap_eq (Dom.mk ["map"]) (by decide)]
    rfl
  · simp only [initCenterOf, initMap_eq (Dom.mk ["map"]) (by decide)]
    rfl

/-- C8 amended: initialization takes no parameters — it looks the map
container up itself and creates the Map View with the hard-coded center
(37.7749, -122.4194) and zoom 13; it constructs the directions and places
service handles bound to that view, wires autocomplete on whichever of the
start/end inputs are present, establishes current-location detection,
registers the DOM event listeners (including the map click listener), and
subscribes to the directions renderer's change notifications. -/
theorem C8_amended_init_effects (d : Dom) (h : "map" ∈ d.ids) :
    ∃ s, (initMap d).2 = some s ∧
      s.map.container = "map" ∧
      s.map.center = sfCenter ∧
      s.map.zoom = 13 ∧
      s.directionsServiceCreated = true ∧
      s.rendererOnMap = true ∧
      s.placesServiceOnMap = true ∧
      (s.autocompleteStart = true ↔ "start-location" ∈ d.ids) ∧
      (s.autocompleteEnd = true ↔ "end-location" ∈ d.ids) ∧
      s.geolocationRequested = true ∧
      s.mapClickListenerAttached = true ∧
      s.rendererSubscribed = true := by
  refine ⟨initStateFor d, by rw [initMap_eq d h], rfl, rfl, rfl, rfl, rfl, rfl, ?_, ?_, rfl, rfl, rfl⟩
  · by_cases h1 : "start-location" ∈ d.ids <;> simp [initStateFor, h1]
  · by_cases h1 : "end-location" ∈ d.ids <;> simp [initStateFor, h1]

/-- Witness for the amended C8 at a concrete DOM with the container and
the start input present. -/
theorem C8_amended_witness :
    ∃ s, (initMap (Dom.mk ["map", "start-location"])).2 = some s ∧
      s.map.container = "map" ∧
      s.map.center = sfCenter ∧
      s.map.zoom = 13 ∧
      s.directionsServiceCreated = true ∧
      s.rendererOnMap = true ∧
      s.placesServiceOnMap = true ∧
      (s.autocompleteStart = true ↔ "start-location" ∈ (Dom.mk ["map", "start-location"]).ids) ∧
      (s.autocompleteEnd = true ↔ "end-location" ∈ (Dom.mk ["map", "start-location"]).ids) ∧
      s.geolocationRequested = true ∧
      s.mapClickListenerAttached = true ∧
      s.rendererSubscribed = true :=
  C8_amended_init_effects (Dom.mk ["map", "start-location"]) (by decide)

/-- C10: unlike the optional controls, the map container and the
directions panel are dereferenced unconditionally: on every run the map
container is looked up; whenever the container is present the directions
panel is looked up too and its (possibly absent) lookup result is passed
straight to the renderer; and when the map container is absent
initialization fails — its absence is not tolerated. -/
theorem C10_container_and_panel_dereferenced_unconditionally (d : Dom) :
    "map" ∈ (initMap d).1 ∧
    ("map" ∈ d.ids →
      "directions-panel" ∈ (initMap d).1 ∧
      ∃ s, (initMap d).2 = some s ∧
        s.rendererPanel = d.getElementById "directions-panel") ∧
    ("map" ∉ d.ids → (initMap d).2 = none) := by
  refine ⟨?_, fun h => ?_, fun h => ?_⟩
  · by_cases h : "map" ∈ d.ids
    · rw [initMap_eq d h]; simp
    · simp [initMap, Dom.getElementById, h, mapsMapNew]
  · rw [initMap_eq d h]
    exact ⟨by simp [initLookupsRest], initStateFor d, rfl, rfl⟩
  · simp [initMap, Dom.getElementById, h, mapsMapNew]

/-- Witness for C10: on a DOM with the container present both lookups
occur, and on the empty DOM initialization fails. -/
theorem C10_witness :
    "map" ∈ (initMap (Dom.mk ["map"])).1 ∧
    "directions-panel" ∈ (initMap (Dom.mk ["map"])).1 ∧
    (initMap (Dom.mk [])).2 = none :=
  ⟨(C10_container_and_panel_dereferenced_unconditionally (Dom.mk ["map"])).1,
   ((C10_container_and_panel_dereferenced_unconditionally (Dom.mk ["map"])).2.1
     (by decide)).1,
   (C10_container_and_panel_dereferenced_unconditionally (Dom.mk [])).2.2
     (by decide)⟩
